import Mathlib

/-!
Verification of the junixsocket native core: the capability-detection
engine (capabilities.c) and the socket-creation lifecycle (socket.c),
shallowly embedded in Lean 4.  Imperative C functions become pure Lean
functions; the JNI pending-exception side channel becomes an
`Option JavaError` component of each result; the single OS call
`socket(PF_UNIX, type, 0)` is modelled by an oracle recording the value
that call returns and the current OS error code.
-/

/-- Modelled from the spec: the managed-runtime `FileDescriptor` handle
(`_getFD` / `_initFD` live in filedescriptors.c, which is not among the
given sources).  Per the spec the handle stores one native descriptor
value, a signed integer where values ≤ 0 mean "unset". -/
structure FileDescriptor where
  fd : Int
deriving DecidableEq, Repr

/-- Modelled from the spec: reading the native descriptor value out of a
handle (`_getFD` in filedescriptors.c, outside the given sources). -/
def _getFD (fd : FileDescriptor) : Int := fd.fd

/-- Modelled from the spec: binding a native descriptor value into a
handle (`_initFD` in filedescriptors.c, outside the given sources); the
only mutation path for the handle's native value field. -/
def _initFD (fd : FileDescriptor) (handle : Int) : FileDescriptor :=
  { fd with fd := handle }

/-- The JNI pending-exception side channel of socket.c: `_throwException`
with kind `kExceptionSocketException` carries a message string, and
`_throwErrnumException` carries the OS error number plus the implicated
`FileDescriptor` object. -/
inductive JavaError where
  | socketException (msg : String)
  | errnumException (errnum : Int) (fd : FileDescriptor)
deriving DecidableEq, Repr

/-- Modelled from the spec: the portable socket-kind tag for Stream, a
constant of the generated JNI header
`org_newsclub_net_unix_NativeUnixSocket.h`, which is not among the given
sources.  The spec fixes a closed three-value tag set with 7 undefined. -/
def org_SOCK_STREAM : Int := 1

/-- Modelled from the spec: the portable socket-kind tag for Datagram
(see `org_SOCK_STREAM`). -/
def org_SOCK_DGRAM : Int := 2

/-- Modelled from the spec: the portable socket-kind tag for
SequencedPacket (see `org_SOCK_STREAM`). -/
def org_SOCK_SEQPACKET : Int := 3

/-- The OS-native socket-kind constant `SOCK_STREAM` (system header). -/
def SOCK_STREAM : Int := 1

/-- The OS-native socket-kind constant `SOCK_DGRAM` (system header). -/
def SOCK_DGRAM : Int := 2

/-- The OS-native socket-kind constant `SOCK_SEQPACKET` (system header). -/
def SOCK_SEQPACKET : Int := 5

/-- Embedding of `sockTypeToNative` from socket.c: translate the portable
socket-kind tag into the OS-native constant; any other tag throws
`kExceptionSocketException` with message "Illegal type" and returns the
sentinel -1.  The first component is the C return value, the second the
pending exception. -/
def sockTypeToNative (type : Int) : Int × Option JavaError :=
  if type = org_SOCK_STREAM then (SOCK_STREAM, none)
  else if type = org_SOCK_DGRAM then (SOCK_DGRAM, none)
  else if type = org_SOCK_SEQPACKET then (SOCK_SEQPACKET, none)
  else (-1, some (JavaError.socketException "Illegal type"))

/-- The set of valid socket-kind tags: exactly those the `switch` in
`sockTypeToNative` accepts. -/
def validSockType (type : Int) : Bool :=
  type = org_SOCK_STREAM || type = org_SOCK_DGRAM || type = org_SOCK_SEQPACKET

/-- Oracle for the one OS interaction of `createSocket`: `socketResult`
is the value the call `socket(PF_UNIX, type, 0)` returns, and `errno` is
the OS error code (`socket_errno`) observed right after that call. -/
structure OS where
  socketResult : Int
  errno : Int
deriving DecidableEq, Repr

/-- Embedding of `Java_org_newsclub_net_unix_NativeUnixSocket_createSocket`
from socket.c.  Returns the (possibly updated) handle together with the
pending exception, mirroring the C control flow: reject an
already-initialized handle, map the kind (propagating its sentinel),
call the OS, throw an errnum exception on a result ≤ 0, otherwise bind
the new descriptor into the handle. -/
def createSocket (os : OS) (fd : FileDescriptor) (type : Int) :
    FileDescriptor × Option JavaError :=
  let handle := _getFD fd
  if handle > 0 then
    (fd, some (JavaError.socketException "Already created"))
  else
    let r := sockTypeToNative type
    if r.1 = -1 then
      (fd, r.2)
    else
      let handle := os.socketResult
      if handle ≤ 0 then
        (fd, some (JavaError.errnumException os.errno fd))
      else
        (_initFD fd handle, none)

/-- For a valid socket-kind tag the mapper throws nothing and never
returns the sentinel -1. -/
lemma sockTypeToNative_valid (type : Int) (ht : validSockType type = true) :
    (sockTypeToNative type).2 = none ∧ ¬ (sockTypeToNative type).1 = -1 := by
  simp only [validSockType, Bool.or_eq_true, decide_eq_true_eq] at ht
  rcases ht with (ht | ht) | ht <;> subst ht <;> decide

/-- C2: on a freshly unset handle with a valid kind, `createSocket`
either succeeds and the handle becomes bound to a native value > 0, or
throws the errnum exception carrying the OS error code and the handle
reference while leaving the handle unchanged (hence unset); no third
outcome exists. -/
theorem createSocket_fresh_valid (os : OS) (fd : FileDescriptor) (type : Int)
    (hfd : fd.fd ≤ 0) (ht : validSockType type = true) :
    ((createSocket os fd type).2 = none ∧ 0 < ((createSocket os fd type).1).fd) ∨
    ((createSocket os fd type).2 = some (JavaError.errnumException os.errno fd) ∧
      (createSocket os fd type).1 = fd) := by
  obtain ⟨h2, h1⟩ := sockTypeToNative_valid type ht
  have hb : ¬ fd.fd > 0 := by omega
  by_cases hos : os.socketResult ≤ 0
  · right
    constructor <;> simp [createSocket, _getFD, hb, h1, h2, hos]
  · left
    constructor <;> simp [createSocket, _getFD, _initFD, hb, h1, h2, hos]
    omega

/-- Witness for C2 at the concrete input: an unset handle (value -1),
kind tag 1 (Stream), an OS that returns descriptor 5. -/
theorem createSocket_fresh_valid_witness :
    (-1 : Int) ≤ 0 ∧ validSockType 1 = true ∧
    (((createSocket ⟨5, 0⟩ ⟨-1⟩ 1).2 = none ∧
        0 < ((createSocket ⟨5, 0⟩ ⟨-1⟩ 1).1).fd) ∨
      ((createSocket ⟨5, 0⟩ ⟨-1⟩ 1).2 =
          some (JavaError.errnumException (⟨5, 0⟩ : OS).errno ⟨-1⟩) ∧
        (createSocket ⟨5, 0⟩ ⟨-1⟩ 1).1 = ⟨-1⟩)) :=
  ⟨by decide, by decide, createSocket_fresh_valid ⟨5, 0⟩ ⟨-1⟩ 1 (by decide) (by decide)⟩

/-- C3: on a handle already bound (native value > 0), `createSocket`
throws the already-created exception for every requested kind and leaves
the handle unchanged. -/
theorem createSocket_already_bound (os : OS) (fd : FileDescriptor) (type : Int)
    (h : 0 < fd.fd) :
    createSocket os fd type = (fd, some (JavaError.socketException "Already created")) := by
  simp [createSocket, _getFD, h]

/-- Witness for C3 at the concrete input: a bound handle (value 4),
kind tag 2, an arbitrary OS oracle. -/
theorem createSocket_already_bound_witness :
    (0 : Int) < 4 ∧
    createSocket ⟨9, 13⟩ ⟨4⟩ 2 =
      (⟨4⟩, some (JavaError.socketException "Already created")) :=
  ⟨by decide, createSocket_already_bound ⟨9, 13⟩ ⟨4⟩ 2 (by decide)⟩

/-- C4: for a kind tag outside the valid set on an unset handle,
`createSocket` throws "Illegal type", the mapper returns the sentinel -1
with that same pending exception, and the handle is unchanged; the
result is the same for every OS oracle, so no OS socket creation is
observable. -/
theorem createSocket_invalid_type (os : OS) (fd : FileDescriptor) (type : Int)
    (hfd : fd.fd ≤ 0) (ht : validSockType type = false) :
    createSocket os fd type = (fd, some (JavaError.socketException "Illegal type")) ∧
    sockTypeToNative type = (-1, some (JavaError.socketException "Illegal type")) := by
  have hb : ¬ fd.fd > 0 := by omega
  simp only [validSockType, Bool.or_eq_false_iff, decide_eq_false_iff_not] at ht
  obtain ⟨⟨h1, h2⟩, h3⟩ := ht
  simp [createSocket, sockTypeToNative, _getFD, hb, h1, h2, h3]

/-- Witness for C4 at the concrete input: unset handle (value 0), kind
tag 9. -/
theorem createSocket_invalid_type_witness :
    (0 : Int) ≤ 0 ∧ validSockType 9 = false ∧
    (createSocket ⟨3, 7⟩ ⟨0⟩ 9 = (⟨0⟩, some (JavaError.socketException "Illegal type")) ∧
      sockTypeToNative 9 = (-1, some (JavaError.socketException "Illegal type"))) :=
  ⟨by decide, by decide, createSocket_invalid_type ⟨3, 7⟩ ⟨0⟩ 9 (by decide) (by decide)⟩

/-- C5 counterexample: on an already-bound handle (value 5), requesting
kind 7 does NOT yield the "Illegal type" exception; the code checks the
already-initialized guard first and throws "Already created" instead. -/
theorem createSocket_kind7_bound_cex :
    (createSocket ⟨1, 0⟩ ⟨5⟩ 7).2 ≠ some (JavaError.socketException "Illegal type") ∧
    (createSocket ⟨1, 0⟩ ⟨5⟩ 7).2 = some (JavaError.socketException "Already created") := by
  constructor <;> decide

/-- C5 amended: requesting kind 7 (an undefined tag) fails with the
handle unchanged on every handle, but the error depends on the handle
state: "Illegal type" on an unset handle, "Already created" on an
already-bound one. -/
theorem createSocket_kind7 (os : OS) (fd : FileDescriptor) :
    (fd.fd ≤ 0 →
      createSocket os fd 7 = (fd, some (JavaError.socketException "Illegal type"))) ∧
    (0 < fd.fd →
      createSocket os fd 7 = (fd, some (JavaError.socketException "Already created"))) := by
  constructor
  · intro hfd
    exact (createSocket_invalid_type os fd 7 hfd (by decide)).1
  · intro hfd
    simp [createSocket, _getFD, hfd]

/-- Witness for the amended C5 at the concrete inputs: the unset handle
of value 0 and, through a second application, the bound handle of
value 6. -/
theorem createSocket_kind7_witness :
    ((0 : Int) ≤ 0 ∧
      createSocket ⟨2, 3⟩ ⟨0⟩ 7 = (⟨0⟩, some (JavaError.socketException "Illegal type"))) ∧
    ((0 : Int) < 6 ∧
      createSocket ⟨2, 3⟩ ⟨6⟩ 7 = (⟨6⟩, some (JavaError.socketException "Already created"))) :=
  ⟨⟨by decide, (createSocket_kind7 ⟨2, 3⟩ ⟨0⟩).1 (by decide)⟩,
    ⟨by decide, (createSocket_kind7 ⟨2, 3⟩ ⟨6⟩).2 (by decide)⟩⟩

/-- C9: when the OS socket call returns descriptor value 0 on an unset
handle with a valid kind, `createSocket` treats it as failure: it throws
the errnum exception built from the current OS error code and leaves the
handle unchanged, so descriptor 0 is never bound into a handle. -/
theorem createSocket_zero_descriptor (os : OS) (fd : FileDescriptor) (type : Int)
    (hfd : fd.fd ≤ 0) (ht : validSockType type = true) (hz : os.socketResult = 0) :
    createSocket os fd type = (fd, some (JavaError.errnumException os.errno fd)) := by
  obtain ⟨h2, h1⟩ := sockTypeToNative_valid type ht
  have hb : ¬ fd.fd > 0 := by omega
  simp [createSocket, _getFD, hb, h1, h2, hz]

/-- Witness for C9 at the concrete input: unset handle (value -1), kind
tag 2 (Datagram), an OS whose socket call returns 0 with errno 24. -/
theorem createSocket_zero_descriptor_witness :
    (-1 : Int) ≤ 0 ∧ validSockType 2 = true ∧ (⟨0, 24⟩ : OS).socketResult = 0 ∧
    createSocket ⟨0, 24⟩ ⟨-1⟩ 2 = (⟨-1⟩, some (JavaError.errnumException 24 ⟨-1⟩)) :=
  ⟨by decide, by decide, by decide,
    createSocket_zero_descriptor ⟨0, 24⟩ ⟨-1⟩ 2 (by decide) (by decide) (by decide)⟩

/-- The platform under which capabilities.c was compiled and runs: one
boolean per preprocessor symbol tested by the function, plus the three
runtime probes.  `peerCredSymbolSun` stands for `__sun || __sun__`.
The probes `supportsUNIX`, `supportsCastAsRedirect` and `supportsTIPC`
are defined outside the given sources; here they are booleans fixed for
the process, as the spec requires. -/
structure Platform where
  supportsUNIX : Bool
  hasLOCAL_PEERCRED : Bool
  hasLOCAL_PEEREPID : Bool
  hasLOCAL_PEEREUUID : Bool
  hasSO_PEERCRED : Bool
  hasSO_PEERID : Bool
  isNetBSD : Bool
  peerCredSymbolSun : Bool
  hasSIO_AF_UNIX_GETPEERPID : Bool
  isOS400 : Bool
  have_ancillary : Bool
  isLinux : Bool
  isWin32 : Bool
  supportsCastAsRedirect : Bool
  supportsTIPC : Bool
deriving DecidableEq, Repr

/-- Capability bit constants of capabilities.c (mirroring
AFSocketCapability.java): peer credentials. -/
def CAPABILITY_PEER_CREDENTIALS : Nat := 1 <<< 0

/-- Capability bit: ancillary messages. -/
def CAPABILITY_ANCILLARY_MESSAGES : Nat := 1 <<< 1

/-- Capability bit: file-descriptor passing. -/
def CAPABILITY_FILE_DESCRIPTORS : Nat := 1 <<< 2

/-- Capability bit: abstract namespace. -/
def CAPABILITY_ABSTRACT_NAMESPACE : Nat := 1 <<< 3

/-- Capability bit: UNIX datagrams. -/
def CAPABILITY_UNIX_DATAGRAMS : Nat := 1 <<< 4

/-- Capability bit: native socketpair. -/
def CAPABILITY_NATIVE_SOCKETPAIR : Nat := 1 <<< 5

/-- Capability bit: descriptor as stream redirect. -/
def CAPABILITY_FD_AS_REDIRECT : Nat := 1 <<< 6

/-- Capability bit: TIPC transport. -/
def CAPABILITY_TIPC : Nat := 1 <<< 7

/-- Capability bit: UNIX-domain sockets supported at all. -/
def CAPABILITY_UNIX_DOMAIN : Nat := 1 <<< 8

/-- The compound preprocessor condition guarding the peer-credentials
block: `LOCAL_PEERCRED || LOCAL_PEEREPID || LOCAL_PEEREUUID ||
SO_PEERCRED || SO_PEERID || __NetBSD__ || __sun || __sun__ ||
SIO_AF_UNIX_GETPEERPID`. -/
def peerCredSymbolAdvertised (p : Platform) : Bool :=
  p.hasLOCAL_PEERCRED || p.hasLOCAL_PEEREPID || p.hasLOCAL_PEEREUUID ||
  p.hasSO_PEERCRED || p.hasSO_PEERID || p.isNetBSD || p.peerCredSymbolSun ||
  p.hasSIO_AF_UNIX_GETPEERPID

/-- Embedding of
`Java_org_newsclub_net_unix_NativeUnixSocket_capabilities` from
capabilities.c: an accumulator starting at 0, OR-ing in each capability
bit under exactly the conditional structure of the C function, with the
peer-credentials, ancillary, abstract-namespace, datagram and socketpair
blocks nested inside the `supportsUNIX()` branch and the `_OS400`
carve-out nested inside the advertised peer-credentials block. -/
def capabilities (p : Platform) : Nat :=
  let caps : Nat := 0
  let caps :=
    if p.supportsUNIX then
      let caps := caps ||| CAPABILITY_UNIX_DOMAIN
      let caps :=
        if peerCredSymbolAdvertised p then
          if p.isOS400 then caps else caps ||| CAPABILITY_PEER_CREDENTIALS
        else caps
      let caps :=
        if p.have_ancillary then
          (caps ||| CAPABILITY_ANCILLARY_MESSAGES) ||| CAPABILITY_FILE_DESCRIPTORS
        else caps
      let caps := if p.isLinux then caps ||| CAPABILITY_ABSTRACT_NAMESPACE else caps
      let caps := if !p.isWin32 then caps ||| CAPABILITY_UNIX_DATAGRAMS else caps
      let caps := if !p.isWin32 then caps ||| CAPABILITY_NATIVE_SOCKETPAIR else caps
      caps
    else caps
  let caps := if p.supportsCastAsRedirect then caps ||| CAPABILITY_FD_AS_REDIRECT else caps
  let caps := if p.supportsTIPC then caps ||| CAPABILITY_TIPC else caps
  caps

/-- Closed form of the capability mask: each bit contributes a fixed
power of two under its exact gating condition. -/
lemma capabilities_closed_form (p : Platform) :
    capabilities p =
      (if p.supportsUNIX then 256 else 0) +
      (if p.supportsUNIX && (peerCredSymbolAdvertised p && !p.isOS400) then 1 else 0) +
      (if p.supportsUNIX && p.have_ancillary then 6 else 0) +
      (if p.supportsUNIX && p.isLinux then 8 else 0) +
      (if p.supportsUNIX && !p.isWin32 then 48 else 0) +
      (if p.supportsCastAsRedirect then 64 else 0) +
      (if p.supportsTIPC then 128 else 0) := by
  cases hu : p.supportsUNIX <;> cases ha : peerCredSymbolAdvertised p <;>
    cases ho : p.isOS400 <;> cases hanc : p.have_ancillary <;>
    cases hl : p.isLinux <;> cases hw : p.isWin32 <;>
    cases hr : p.supportsCastAsRedirect <;> cases ht : p.supportsTIPC <;>
    simp [capabilities, hu, ha, ho, hanc, hl, hw, hr, ht] <;> decide

/-- C1: in every capability mask the dependent bits PeerCredentials,
AncillaryMessages, FileDescriptorPassing, AbstractNamespace,
UnixDatagrams and NativeSocketPair are unset whenever the
UnixDomainSockets bit is unset, because all six are OR-ed in only inside
the `supportsUNIX()` branch. -/
theorem capabilities_prerequisite (p : Platform)
    (h : capabilities p &&& CAPABILITY_UNIX_DOMAIN = 0) :
    capabilities p &&& CAPABILITY_PEER_CREDENTIALS = 0 ∧
    capabilities p &&& CAPABILITY_ANCILLARY_MESSAGES = 0 ∧
    capabilities p &&& CAPABILITY_FILE_DESCRIPTORS = 0 ∧
    capabilities p &&& CAPABILITY_ABSTRACT_NAMESPACE = 0 ∧
    capabilities p &&& CAPABILITY_UNIX_DATAGRAMS = 0 ∧
    capabilities p &&& CAPABILITY_NATIVE_SOCKETPAIR = 0 := by
  rw [capabilities_closed_form] at h ⊢
  revert h
  cases hu : p.supportsUNIX <;>
    cases hpc : peerCredSymbolAdvertised p && !p.isOS400 <;>
    cases hanc : p.have_ancillary <;>
    cases hl : p.isLinux <;>
    cases hw : p.isWin32 <;>
    cases hr : p.supportsCastAsRedirect <;>
    cases ht : p.supportsTIPC <;>
    simp [hu, hpc, hanc, hl, hw, hr, ht] <;> decide

/-- Witness for C1 at the concrete input: the all-false platform, whose
mask is 0. -/
theorem capabilities_prerequisite_witness :
    (capabilities
        ⟨false, false, false, false, false, false, false, false, false,
          false, false, false, false, false, false⟩ &&&
      CAPABILITY_UNIX_DOMAIN = 0) ∧
    (capabilities
        ⟨false, false, false, false, false, false, false, false, false,
          false, false, false, false, false, false⟩ &&&
      CAPABILITY_PEER_CREDENTIALS = 0 ∧
    capabilities
        ⟨false, false, false, false, false, false, false, false, false,
          false, false, false, false, false, false⟩ &&&
      CAPABILITY_ANCILLARY_MESSAGES = 0 ∧
    capabilities
        ⟨false, false, false, false, false, false, false, false, false,
          false, false, false, false, false, false⟩ &&&
      CAPABILITY_FILE_DESCRIPTORS = 0 ∧
    capabilities
        ⟨false, false, false, false, false, false, false, false, false,
          false, false, false, false, false, false⟩ &&&
      CAPABILITY_ABSTRACT_NAMESPACE = 0 ∧
    capabilities
        ⟨false, false, false, false, false, false, false, false, false,
          false, false, false, false, false, false⟩ &&&
      CAPABILITY_UNIX_DATAGRAMS = 0 ∧
    capabilities
        ⟨false, false, false, false, false, false, false, false, false,
          false, false, false, false, false, false⟩ &&&
      CAPABILITY_NATIVE_SOCKETPAIR = 0) :=
  ⟨by decide,
    capabilities_prerequisite
      ⟨false, false, false, false, false, false, false, false, false,
        false, false, false, false, false, false⟩ (by decide)⟩

/-- C6: the PeerCredentials bit (bit 0) is set exactly when
UnixDomainSockets support holds, a peer-credential symbol is advertised,
and the build is not the denylisted `_OS400` one; in particular every
`_OS400` build leaves the bit unset even with the symbol advertised. -/
theorem capability_peer_credentials_gating (p : Platform) :
    (capabilities p).testBit 0 =
      (p.supportsUNIX && (peerCredSymbolAdvertised p && !p.isOS400)) := by
  rw [capabilities_closed_form]
  cases hu : p.supportsUNIX <;>
    cases hpc : peerCredSymbolAdvertised p && !p.isOS400 <;>
    cases hanc : p.have_ancillary <;>
    cases hl : p.isLinux <;>
    cases hw : p.isWin32 <;>
    cases hr : p.supportsCastAsRedirect <;>
    cases ht : p.supportsTIPC <;>
    simp [hu, hpc, hanc, hl, hw, hr, ht]

/-- C7: the FileDescriptorPassing bit (bit 2) equals the
AncillaryMessages bit (bit 1) in every capability mask, since both are
OR-ed in together under `junixsocket_have_ancillary`. -/
theorem capability_fd_passing_iff_ancillary (p : Platform) :
    (capabilities p).testBit 2 = (capabilities p).testBit 1 := by
  rw [capabilities_closed_form]
  cases hu : p.supportsUNIX <;>
    cases hpc : peerCredSymbolAdvertised p && !p.isOS400 <;>
    cases hanc : p.have_ancillary <;>
    cases hl : p.isLinux <;>
    cases hw : p.isWin32 <;>
    cases hr : p.supportsCastAsRedirect <;>
    cases ht : p.supportsTIPC <;>
    simp [hu, hpc, hanc, hl, hw, hr, ht] <;> decide

/-- C10: every capability mask uses only bit positions 0 through 8, so
the returned integer is below 512. -/
theorem capabilities_lt_512 (p : Platform) : capabilities p < 512 := by
  rw [capabilities_closed_form]
  cases hu : p.supportsUNIX <;>
    cases hpc : peerCredSymbolAdvertised p && !p.isOS400 <;>
    cases hanc : p.have_ancillary <;>
    cases hl : p.isLinux <;>
    cases hw : p.isWin32 <;>
    cases hr : p.supportsCastAsRedirect <;>
    cases ht : p.supportsTIPC <;>
    simp [hu, hpc, hanc, hl, hw, hr, ht]

/-- Modelled from the spec: the process state read by the capability
query.  The C function mutates nothing (it only builds a local
accumulator), and the runtime probes it calls — defined outside the
given sources — are per-process constants per the spec, so the whole
observable state is the fixed `Platform`. -/
structure ProcessState where
  platform : Platform
deriving DecidableEq, Repr

/-- One invocation of the zero-argument capability query as seen by a
caller: it returns the mask and leaves the process state unchanged. -/
def capabilitiesCall (s : ProcessState) : Nat × ProcessState :=
  (capabilities s.platform, s)

/-- C8: two consecutive invocations of the capability query in one
process return bit-for-bit identical masks, and the query leaves the
process state untouched. -/
theorem capabilities_stable (s : ProcessState) :
    (capabilitiesCall (capabilitiesCall s).2).1 = (capabilitiesCall s).1 ∧
    (capabilitiesCall s).2 = s :=
  ⟨rfl, rfl⟩
